import Mathlib

/-!
Verification of the telephony-to-translation bridge repository.

The repository holds several near-duplicate variants of one bridge between a
telephony media-stream WebSocket (caller leg) and the OpenAI realtime
translation WebSocket (backend leg).  The variants embedded here:

- src/index.js          : the gated main variant (readiness flag, beep
                          notification, registry of active connections);
- src/unnamed/part_001  : an ungated SignalWire variant whose delta branch
                          checks the stored stream identifier;
- src/unnamed/part_003  : the manual turn-taking SignalWire variant (commit
                          plus response.create on speech stop).

Each event handler is embedded as a pure step function on an explicit session
state, returning the new state together with the list of messages written to
the backend socket and the list of media frames written to the caller socket,
in the order the handler writes them.  Handlers are taken as atomic, matching
the single-threaded event loop of the source.  JSON parse failures are
modelled as a none message: the source wraps every handler body in a
try/catch whose catch only logs.
-/

namespace Translation

/-- Inbound caller-leg events after JSON parsing, as dispatched by the
ws.on message handler of src/index.js lines 233-261. -/
inductive TwilioEvent where
  | start (streamSid : String)
  | media (payload : String)
  | stop
deriving DecidableEq, Repr

/-- Inbound backend events after JSON parsing, tagged by their type field,
covering every type the variants dispatch on.  The audio delta carries an
optional stream_sid of its own, as read by src/index.js line 194. -/
inductive OpenAIEvent where
  | sessionCreated
  | sessionUpdated
  | conversationItemCreated
  | speechStarted
  | speechStopped
  | transcriptDelta (delta : String)
  | responseAudioDelta (delta : String)
  | outputAudioDelta (streamSid : Option String) (delta : String)
  | responseDone
  | errorEvent
  | conversationItemCompleted
deriving DecidableEq, Repr

/-- The session.update configuration payload of src/index.js lines 126-144.
The voice-activity-detection threshold is a rational, standing for the
JavaScript number 0.5. -/
structure SessionConfig where
  modalities : List String
  instructions : String
  voice : String
  inputAudioFormat : String
  outputAudioFormat : String
  transcriptionModel : String
  turnDetectionType : String
  threshold : Rat
  prefixPaddingMs : Nat
  silenceDurationMs : Nat
deriving DecidableEq, Repr

/-- Messages written to the backend socket. -/
inductive ToOpenAIMsg where
  | sessionUpdate (cfg : SessionConfig)
  | inputAudioAppend (audio : String)
  | inputAudioCommit
  | responseCreate (instructions : Option String)
deriving DecidableEq, Repr

/-- An outbound media envelope written to the caller socket: the JSON object
with event media, a streamSid tag and a payload.  The tag is an Option
because src/index.js line 194 can write it as null. -/
structure MediaFrame where
  streamSid : Option String
  payload : String
deriving DecidableEq, Repr

/-- The fixed interpreter instructions of src/index.js lines 51 and 130. -/
def interpreterInstructions : String :=
  "You are a live interpreter. Translate English → Spanish and Spanish → English in real time. Respond only with the translation audio."

/-- The spoken-notification instructions of src/index.js line 182. -/
def translatorReadyInstructions : String :=
  "Say \"Translator ready\" in a clear, professional voice."

/-- The configuration object sent by the open handler of src/index.js
lines 126-144. -/
def indexSessionConfig : SessionConfig :=
  { modalities := ["audio", "text"]
    instructions := interpreterInstructions
    voice := "verse"
    inputAudioFormat := "pcm16"
    outputAudioFormat := "pcm16"
    transcriptionModel := "whisper-1"
    turnDetectionType := "server_vad"
    threshold := 0.5
    prefixPaddingMs := 300
    silenceDurationMs := 200 }

/-- Low byte of a 16-bit PCM sample, as src/index.js line 296 computes
sample bitand 255 on the two's-complement integer value. -/
def sampleLo (v : Int) : Nat := (v.emod 256).toNat

/-- High byte of a 16-bit PCM sample, as src/index.js line 297 computes the
arithmetic right shift by 8 followed by bitand 255. -/
def sampleHi (v : Int) : Nat := ((v.fdiv 256).emod 256).toNat

/-- Number of samples generated by generateBeepTone, src/index.js line 287:
the floor of sampleRate times durationMs over 1000. -/
def beepSampleCount (sampleRate durationMs : Nat) : Nat :=
  sampleRate * durationMs / 1000

/-- The byte string built by the loop of src/index.js lines 292-298: for each
sample index in order, its low byte then its high byte (little-endian).  The
integer value of sample i (amplitude times sine, truncated to an integer as
the bitwise operators do) is abstracted as the parameter sv, since the source
computes it in floating point. -/
def beepList (sv : Nat → Int) : Nat → List Nat
  | 0 => []
  | n + 1 => beepList sv n ++ [sampleLo (sv n), sampleHi (sv n)]

/-- The full PCM byte string of generateBeepTone at the fixed telephony
sample rate 8000 of src/index.js line 286. -/
def beepBytes (sv : Nat → Int) (durationMs : Nat) : List Nat :=
  beepList sv (beepSampleCount 8000 durationMs)

/-- The base64 alphabet used by Buffer.toString base64. -/
def base64Table : List Char :=
  "ABCDEFGHIJKLMNOPQRSTUVWXYZabcdefghijklmnopqrstuvwxyz0123456789+/".toList

/-- Character of the base64 alphabet at an index below 64. -/
def b64c (n : Nat) : Char := base64Table.getD n (Char.ofNat 65)

/-- Standard base64 of a byte list, as Buffer.from(data, binary).toString
base64 produces at src/index.js line 301. -/
def base64Encode : List Nat → String
  | [] => ""
  | [b1] => String.mk [b64c (b1 / 4), b64c (b1 % 4 * 16)] ++ "=="
  | [b1, b2] =>
      String.mk [b64c (b1 / 4), b64c (b1 % 4 * 16 + b2 / 16), b64c (b2 % 16 * 4)] ++ "="
  | b1 :: b2 :: b3 :: rest =>
      String.mk [b64c (b1 / 4), b64c (b1 % 4 * 16 + b2 / 16),
        b64c (b2 % 16 * 4 + b3 / 64), b64c (b3 % 64)] ++ base64Encode rest

/-- generateBeepTone of src/index.js lines 285-302.  The frequency and the
volume enter only through the abstracted sample values sv; the duration
drives the sample count. -/
def generateBeepTone (sv : Nat → Int) (frequency durationMs : Nat) : String :=
  base64Encode (beepBytes sv durationMs)

/-- Mutable per-connection state of src/index.js lines 101-104, together with
the openness of the two sockets.  openAIOpen models openAIWS.readyState
equal to OPEN, twilioOpen models ws.readyState equal to OPEN. -/
structure SessionState where
  openAIReady : Bool
  streamSid : Option String
  twilioOpen : Bool
  openAIOpen : Bool
deriving DecidableEq, Repr

/-- Per-connection state together with the backend session identifier and
the process-wide registry openAIConnections, modelled as the list of session
identifiers currently registered. -/
structure BridgeState where
  sess : SessionState
  sessionId : Option String
  registry : List String
deriving DecidableEq, Repr

/-- JavaScript or-else on nullable strings, as in stream_sid or streamSid at
src/index.js line 194 (the empty-string case does not arise here). -/
def jsOr (a b : Option String) : Option String :=
  match a with
  | some x => some x
  | none => b

/-- Map.delete on the registry keyed by an optional session identifier: the
source calls delete with a possibly null sessionId, which removes nothing. -/
def regDelete (sid : Option String) (r : List String) : List String :=
  match sid with
  | none => r
  | some k => r.filter (fun x => !(x == k))

/-- Map.set of a session identifier into the registry. -/
def regSet (k : String) (r : List String) : List String :=
  if r.contains k then r else k :: r

/-- The caller-leg message handler of src/index.js lines 233-261, on a parsed
event.  The start branch stores the stream identifier; the media branch
forwards the payload as input_audio_buffer.append only when the backend
socket is open and the readiness flag is set, else only logs; the stop
branch closes the backend socket when it is open. -/
def processTwilioEvent (s : SessionState) :
    TwilioEvent → SessionState × List ToOpenAIMsg × List MediaFrame
  | .start sid => ({ s with streamSid := some sid }, [], [])
  | .media p =>
      if s.openAIOpen && s.openAIReady then (s, [.inputAudioAppend p], [])
      else (s, [], [])
  | .stop =>
      if s.openAIOpen then ({ s with openAIOpen := false }, [], [])
      else (s, [], [])

/-- The backend message handler of src/index.js lines 147-206, on a parsed
event.  session.updated sets the readiness flag and, when the stream
identifier is known and the caller socket open, writes the beep frame to the
caller and a response.create announcement to the backend (the announcement
is sent from a timeout that re-checks that the caller socket is open).  The
audio-delta branch writes a frame whenever the caller socket is open,
tagging it with the event stream_sid falling back to the stored one.  Every
other event only logs. -/
def processOpenAIEvent (sv : Nat → Int) (s : SessionState) :
    OpenAIEvent → SessionState × List ToOpenAIMsg × List MediaFrame
  | .sessionUpdated =>
      let s2 := { s with openAIReady := true }
      if s.streamSid.isSome && s.twilioOpen then
        (s2, [.responseCreate (some translatorReadyInstructions)],
          [{ streamSid := s.streamSid, payload := generateBeepTone sv 440 200 }])
      else (s2, [], [])
  | .outputAudioDelta sid d =>
      if s.twilioOpen then
        (s, [], [{ streamSid := jsOr sid s.streamSid, payload := d }])
      else (s, [], [])
  | _ => (s, [], [])

/-- One occurrence on either socket of the main variant: a message (none for
JSON that fails to parse), the backend socket opening, or a close or error
on either leg. -/
inductive BridgeEvent where
  | fromTwilio (msg : Option TwilioEvent)
  | fromOpenAI (msg : Option OpenAIEvent)
  | openAIOpened
  | openAIClosed
  | openAIErrored
  | twilioClosed
  | twilioErrored
deriving DecidableEq, Repr

/-- One step of the main variant src/index.js.  Parse failures are caught
and only logged (lines 203-205 and 258-260).  The open handler (lines
122-145) sends the single configuration event.  The backend close and error
handlers (lines 208-224) clear the readiness flag, delete the registry
entry and close the caller socket; on error the ws library also closes the
backend socket itself.  The caller close and error handlers (lines 263-281)
close the backend socket when open and delete the registry entry when the
session identifier is set (regDelete on none removes nothing, matching the
guarded delete). -/
def stepBridge (sv : Nat → Int) (s : BridgeState) :
    BridgeEvent → BridgeState × List ToOpenAIMsg × List MediaFrame
  | .fromTwilio none => (s, [], [])
  | .fromTwilio (some ev) =>
      let r := processTwilioEvent s.sess ev
      ({ s with sess := r.1 }, r.2.1, r.2.2)
  | .fromOpenAI none => (s, [], [])
  | .fromOpenAI (some ev) =>
      let r := processOpenAIEvent sv s.sess ev
      ({ s with sess := r.1 }, r.2.1, r.2.2)
  | .openAIOpened =>
      ({ s with sess := { s.sess with openAIOpen := true } },
        [.sessionUpdate indexSessionConfig], [])
  | .openAIClosed =>
      ({ s with
          sess := { s.sess with openAIReady := false, openAIOpen := false, twilioOpen := false }
          registry := regDelete s.sessionId s.registry }, [], [])
  | .openAIErrored =>
      ({ s with
          sess := { s.sess with openAIReady := false, openAIOpen := false, twilioOpen := false }
          registry := regDelete s.sessionId s.registry }, [], [])
  | .twilioClosed =>
      ({ s with
          sess := { s.sess with twilioOpen := false, openAIOpen := false }
          registry := regDelete s.sessionId s.registry }, [], [])
  | .twilioErrored =>
      ({ s with
          sess := { s.sess with twilioOpen := false, openAIOpen := false }
          registry := regDelete s.sessionId s.registry }, [], [])

/-- Run of the main variant over a list of events, concatenating the outputs
of each step in order. -/
def runBridge (sv : Nat → Int) :
    BridgeState → List BridgeEvent → BridgeState × List ToOpenAIMsg × List MediaFrame
  | s, [] => (s, [], [])
  | s, e :: evs =>
      let r := stepBridge sv s e
      let rest := runBridge sv r.1 evs
      (rest.1, r.2.1 ++ rest.2.1, r.2.2 ++ rest.2.2)

/-- Outcome of the negotiation request of createOpenAISession, src/index.js
lines 40-66: the session identifier on success, failure when the response
status is not ok (the function then throws). -/
inductive NegotiationResult where
  | ok (sessionId : String)
  | failure
deriving DecidableEq, Repr

/-- Outcome of the setup block of src/index.js lines 106-230: the registry
afterwards, whether the caller socket was closed by the catch block, and the
registered session identifier when setup succeeded. -/
structure SetupResult where
  registry : List String
  callerClosed : Bool
  established : Option String
deriving DecidableEq, Repr

/-- The try/catch setup of src/index.js lines 106-230: a throw anywhere in
the try block (negotiation failure, or the streaming socket failing to be
constructed) reaches the catch before the registry set at line 119 runs, so
the catch closes the caller socket and leaves the registry untouched; on
success the session is registered and the caller socket stays open. -/
def setupSession : NegotiationResult → List String → SetupResult
  | .failure, reg => { registry := reg, callerClosed := true, established := none }
  | .ok sid, reg =>
      { registry := regSet sid reg, callerClosed := false, established := some sid }

namespace Part1

/-- Per-connection state of src/unnamed/part_001 lines 53-54, with the
openness of the caller socket. -/
structure State where
  wsOpen : Bool
  streamSid : Option String
deriving DecidableEq, Repr

/-- The backend message handler of src/unnamed/part_001 lines 98-117: only
the audio-delta type is dispatched, and the frame is written only when the
caller socket is open and the stored stream identifier is set (line 104). -/
def processOpenAIEvent (s : State) : OpenAIEvent → List MediaFrame
  | .outputAudioDelta _ d =>
      if s.wsOpen && s.streamSid.isSome then
        [{ streamSid := s.streamSid, payload := d }]
      else []
  | _ => []

end Part1

namespace Part3

/-- Per-connection state of src/unnamed/part_003 lines 95-100, with the
openness of the two sockets. -/
structure State where
  streamSid : Option String
  speechStarted : Bool
  wsOpen : Bool
  openAIOpen : Bool
  audioChunksReceived : Nat
  audioChunksSent : Nat
deriving DecidableEq, Repr

/-- The backend message handler of src/unnamed/part_003 lines 145-213.
speech_started and speech_stopped toggle the flag; speech_stopped with the
backend socket open additionally sends input_audio_buffer.commit and then
(from a timeout that re-checks openness) response.create with no payload
(lines 159-179).  The audio-delta branch increments the sent counter and
writes the frame only when the caller socket is open and the stream
identifier set (lines 185-199).  Every other type only logs. -/
def processOpenAIEvent (s : State) :
    OpenAIEvent → State × List ToOpenAIMsg × List MediaFrame
  | .speechStarted => ({ s with speechStarted := true }, [], [])
  | .speechStopped =>
      ({ s with speechStarted := false },
        (if s.openAIOpen then
          [ToOpenAIMsg.inputAudioCommit, ToOpenAIMsg.responseCreate none]
        else []), [])
  | .outputAudioDelta _ d =>
      let s2 := { s with audioChunksSent := s.audioChunksSent + 1 }
      if s.wsOpen && s.streamSid.isSome then
        (s2, [], [{ streamSid := s.streamSid, payload := d }])
      else (s2, [], [])
  | _ => (s, [], [])

/-- A close or error on either leg of src/unnamed/part_003. -/
inductive LegEvent where
  | callerClosed
  | callerErrored
  | backendClosed
  | backendErrored
deriving DecidableEq, Repr

/-- The close and error handlers of src/unnamed/part_003.  The caller-leg
handlers (lines 269-281) close the backend socket when it is open; the
backend-leg handlers (lines 215-221) only log, leaving the caller socket as
it was.  This variant keeps no registry. -/
def processLeg (s : State) : LegEvent → State
  | .callerClosed => { s with wsOpen := false, openAIOpen := false }
  | .callerErrored => { s with wsOpen := false, openAIOpen := false }
  | .backendClosed => { s with openAIOpen := false }
  | .backendErrored => { s with openAIOpen := false }

end Part3

/-- Concrete abstract-sample instantiation used by witnesses. -/
def zeroSamples : Nat → Int := fun _ => 0

/-- Reachable state of the main variant after negotiation returned s1, the
gate opened and the caller sent start with stream identifier abc. -/
def readyAbc : BridgeState :=
  { sess := { openAIReady := true, streamSid := some "abc", twilioOpen := true, openAIOpen := true }
    sessionId := some "s1"
    registry := ["s1"] }

/-- Reachable state of the main variant with the gate open but no start
event processed yet: the stream identifier is unknown. -/
def noStreamState : BridgeState :=
  { sess := { openAIReady := true, streamSid := none, twilioOpen := true, openAIOpen := true }
    sessionId := some "s1"
    registry := ["s1"] }

/-- Reachable state of the main variant before the session.updated
acknowledgment: the gate is still closed. -/
def gateClosedState : BridgeState :=
  { sess := { openAIReady := false, streamSid := some "abc", twilioOpen := true, openAIOpen := true }
    sessionId := some "s1"
    registry := ["s1"] }

/-- Reachable state of the part_001 variant before any start event: the
caller socket is open and the stream identifier unknown. -/
def part1NoStream : Part1.State :=
  { wsOpen := true, streamSid := none }

/-- Reachable state of the part_003 variant with both legs open. -/
def part3Both : Part3.State :=
  { streamSid := some "abc"
    speechStarted := false
    wsOpen := true
    openAIOpen := true
    audioChunksReceived := 0
    audioChunksSent := 0 }

end Translation

namespace Translation

/-- Deleting a key from the registry removes every occurrence of it. -/
theorem not_mem_regDelete (k : String) (r : List String) :
    k ∉ regDelete (some k) r := by
  intro h
  rcases List.mem_filter.mp h with ⟨-, hk⟩
  simp at hk

/-- The beep byte string holds two bytes per sample. -/
theorem beepList_length (sv : Nat → Int) (n : Nat) :
    (beepList sv n).length = 2 * n := by
  induction n with
  | zero => rfl
  | succ m ih =>
      simp [beepList, ih]
      omega

/-- The beep byte string is, sample by sample in order, the low byte then
the high byte of each abstract sample value. -/
theorem beepList_eq_flatMap (sv : Nat → Int) (n : Nat) :
    beepList sv n = (List.range n).flatMap (fun i => [sampleLo (sv i), sampleHi (sv i)]) := by
  induction n with
  | zero => rfl
  | succ m ih =>
      rw [beepList, ih, List.range_succ, List.flatMap_append]
      rfl

end Translation

namespace Translation

/-- C4: end-to-end relay correctness and ordering in src/index.js.  With the
gate open and stream identifier abc stored, the three inbound media frames
AAA, BBB, CCC produce exactly the three input_audio_buffer.append events in
that order and nothing else toward the backend, and the two backend
audio-delta events XXX, YYY produce exactly the two outbound media frames
tagged abc in that order, payloads passed through unmodified. -/
theorem C4_end_to_end_relay (sv : Nat → Int) :
    runBridge sv readyAbc
      [.fromTwilio (some (.media "AAA")), .fromTwilio (some (.media "BBB")),
        .fromTwilio (some (.media "CCC")),
        .fromOpenAI (some (.outputAudioDelta none "XXX")),
        .fromOpenAI (some (.outputAudioDelta none "YYY"))] =
      (readyAbc,
        [ToOpenAIMsg.inputAudioAppend "AAA", ToOpenAIMsg.inputAudioAppend "BBB",
          ToOpenAIMsg.inputAudioAppend "CCC"],
        [{ streamSid := some "abc", payload := "XXX" },
          { streamSid := some "abc", payload := "YYY" }]) := rfl

/-- C6: a malformed, non-JSON-parsable message on either socket of
src/index.js is caught by the try/catch and only logged: it leaves the
session state unchanged, emits nothing, does not close either socket, and
any subsequent events are processed exactly as if the malformed message had
never arrived. -/
theorem C6_malformed_is_noop (sv : Nat → Int) (s : BridgeState) (evs : List BridgeEvent) :
    stepBridge sv s (.fromTwilio none) = (s, [], []) ∧
    stepBridge sv s (.fromOpenAI none) = (s, [], []) ∧
    runBridge sv s (.fromTwilio none :: evs) = runBridge sv s evs ∧
    runBridge sv s (.fromOpenAI none :: evs) = runBridge sv s evs := by
  refine ⟨rfl, rfl, ?_, ?_⟩ <;> simp [runBridge, stepBridge]

/-- C9: in the manual turn-taking variant src/unnamed/part_003, a
speech_stopped event with the backend socket open sends exactly one
input_audio_buffer.commit followed by one response.create, in that order,
and nothing when the socket is closed; speech_started and speech_stopped
only toggle the flag and forward no payload to the caller. -/
theorem C9_speech_stopped_commit_then_response (s : Part3.State) :
    Part3.processOpenAIEvent s .speechStopped =
      ({ s with speechStarted := false },
        (if s.openAIOpen then
          [ToOpenAIMsg.inputAudioCommit, ToOpenAIMsg.responseCreate none]
        else []), []) ∧
    Part3.processOpenAIEvent s .speechStarted =
      ({ s with speechStarted := true }, [], []) := ⟨rfl, rfl⟩

/-- C1 counterexample: in the src/unnamed/part_003 variant, from the
reachable state with both legs open, a backend-socket close leaves the
caller socket open: the teardown is not symmetric in every variant, and the
session reaches a state with exactly one leg still open. -/
theorem C1_part3_backend_close_leaves_caller_open :
    (Part3.processLeg part3Both .backendClosed).wsOpen = true ∧
    (Part3.processLeg part3Both .backendClosed).openAIOpen = false := ⟨rfl, rfl⟩

/-- C3 counterexample: in src/index.js, a backend audio-delta event arriving
while the stored stream identifier is still unknown and carrying no
stream_sid of its own is nevertheless written to the caller socket, as a
frame whose streamSid tag is null. -/
theorem C3_untagged_frame_written :
    noStreamState.sess.streamSid = none ∧
    (stepBridge zeroSamples noStreamState
        (.fromOpenAI (some (.outputAudioDelta none "XXX")))).2.2 =
      [{ streamSid := none, payload := "XXX" }] := ⟨rfl, rfl⟩

/-- C5 counterexample: in src/index.js, a media event arriving before any
start event (stream identifier unknown) is not ignored once the readiness
gate is open: the frame is forwarded to the backend as an append event. -/
theorem C5_media_before_start_forwarded :
    noStreamState.sess.streamSid = none ∧
    (stepBridge zeroSamples noStreamState (.fromTwilio (some (.media "AAA")))).2.1 =
      [ToOpenAIMsg.inputAudioAppend "AAA"] := ⟨rfl, rfl⟩

end Translation

namespace Translation

/-- C1 (amended): in the main variant src/index.js, a close or error event
on either leg closes the other leg within the same handler and removes the
session registry entry, so neither leg outlives the other there; but this
does not hold in every variant of the source history: in
src/unnamed/part_003 a caller-leg close or error closes the backend leg,
while a backend-leg close or error only logs and leaves the caller leg
exactly as it was. -/
theorem C1_teardown_symmetry (sv : Nat → Int) (s : BridgeState) (sid : String)
    (h : s.sessionId = some sid) :
    ((stepBridge sv s .openAIClosed).1.sess.twilioOpen = false ∧
      (stepBridge sv s .openAIClosed).1.sess.openAIOpen = false ∧
      sid ∉ (stepBridge sv s .openAIClosed).1.registry) ∧
    ((stepBridge sv s .openAIErrored).1.sess.twilioOpen = false ∧
      (stepBridge sv s .openAIErrored).1.sess.openAIOpen = false ∧
      sid ∉ (stepBridge sv s .openAIErrored).1.registry) ∧
    ((stepBridge sv s .twilioClosed).1.sess.twilioOpen = false ∧
      (stepBridge sv s .twilioClosed).1.sess.openAIOpen = false ∧
      sid ∉ (stepBridge sv s .twilioClosed).1.registry) ∧
    ((stepBridge sv s .twilioErrored).1.sess.twilioOpen = false ∧
      (stepBridge sv s .twilioErrored).1.sess.openAIOpen = false ∧
      sid ∉ (stepBridge sv s .twilioErrored).1.registry) ∧
    (∀ t : Part3.State,
      (Part3.processLeg t .callerClosed).wsOpen = false ∧
      (Part3.processLeg t .callerClosed).openAIOpen = false ∧
      (Part3.processLeg t .callerErrored).wsOpen = false ∧
      (Part3.processLeg t .callerErrored).openAIOpen = false ∧
      (Part3.processLeg t .backendClosed).wsOpen = t.wsOpen ∧
      (Part3.processLeg t .backendErrored).wsOpen = t.wsOpen) := by
  refine ⟨⟨rfl, rfl, ?_⟩, ⟨rfl, rfl, ?_⟩, ⟨rfl, rfl, ?_⟩, ⟨rfl, rfl, ?_⟩,
    fun t => ⟨rfl, rfl, rfl, rfl, rfl, rfl⟩⟩ <;>
    simp [stepBridge, h] <;> exact not_mem_regDelete sid s.registry

/-- C2: in src/index.js, for every sequence of inbound caller events, no
input_audio_buffer.append event is sent to the backend while the readiness
flag is still false; a media frame arriving before the gate opens leaves the
state unchanged and produces nothing, then or later (dropped, never queued
and flushed); and no event other than the session.updated acknowledgment
can open the gate. -/
theorem C2_gate_drops_never_flushes (sv : Nat → Int) (s : BridgeState) (p : String)
    (evs : List BridgeEvent) (h : s.sess.openAIReady = false) :
    stepBridge sv s (.fromTwilio (some (.media p))) = (s, [], []) ∧
    runBridge sv s (.fromTwilio (some (.media p)) :: evs) = runBridge sv s evs ∧
    (∀ e : BridgeEvent, ∀ q : String,
      ToOpenAIMsg.inputAudioAppend q ∉ (stepBridge sv s e).2.1) ∧
    (∀ e : BridgeEvent, e ≠ .fromOpenAI (some .sessionUpdated) →
      (stepBridge sv s e).1.sess.openAIReady = false) := by
  have hstep : stepBridge sv s (.fromTwilio (some (.media p))) = (s, [], []) := by
    simp [stepBridge, processTwilioEvent, h]
  refine ⟨hstep, ?_, ?_, ?_⟩
  · simp [runBridge, hstep]
  · intro e q
    cases e with
    | fromTwilio m =>
        cases m with
        | none => simp [stepBridge]
        | some ev =>
            cases ev <;> simp [stepBridge, processTwilioEvent, h] <;> split <;> simp
    | fromOpenAI m =>
        cases m with
        | none => simp [stepBridge]
        | some ev =>
            cases ev <;> simp [stepBridge, processOpenAIEvent] <;> split <;> simp
    | openAIOpened => simp [stepBridge]
    | openAIClosed => simp [stepBridge]
    | openAIErrored => simp [stepBridge]
    | twilioClosed => simp [stepBridge]
    | twilioErrored => simp [stepBridge]
  · intro e hne
    cases e with
    | fromTwilio m =>
        cases m with
        | none => simpa [stepBridge] using h
        | some ev =>
            cases ev <;> simp [stepBridge, processTwilioEvent, h] <;> split <;> simp [h]
    | fromOpenAI m =>
        cases m with
        | none => simpa [stepBridge] using h
        | some ev =>
            cases ev <;> first
              | exact absurd rfl hne
              | (simp [stepBridge, processOpenAIEvent, h] <;> split <;> simp [h])
    | openAIOpened => simpa [stepBridge] using h
    | openAIClosed => simp [stepBridge]
    | openAIErrored => simp [stepBridge]
    | twilioClosed => simpa [stepBridge] using h
    | twilioErrored => simpa [stepBridge] using h

/-- C5 (amended): in src/index.js a media event arriving before any start
event is not treated as a protocol violation: the handler never checks
whether start has been processed; the frame is forwarded to the backend
exactly when the backend socket is open and the readiness flag set, and
otherwise dropped with a log; in both cases the state is unchanged and no
socket is closed. -/
theorem C5_media_before_start_not_special (sv : Nat → Int) (s : BridgeState) (p : String)
    (h : s.sess.streamSid = none) :
    stepBridge sv s (.fromTwilio (some (.media p))) =
      (s,
        (if s.sess.openAIOpen && s.sess.openAIReady then
          [ToOpenAIMsg.inputAudioAppend p]
        else []), []) := by
  simp only [stepBridge, processTwilioEvent]
  split <;> simp_all

/-- C7: setup-failure atomicity in src/index.js.  When negotiation fails the
catch block closes the caller socket, nothing is registered and the registry
is exactly as before; when negotiation succeeds the session is registered,
and a later failure of the streaming connection (the backend error event)
removes the entry and closes the caller socket. -/
theorem C7_setup_atomicity (sid : String) (reg : List String) (sv : Nat → Int)
    (s : BridgeState) (h : s.sessionId = some sid) :
    (setupSession .failure reg).callerClosed = true ∧
    (setupSession .failure reg).registry = reg ∧
    (setupSession .failure reg).established = none ∧
    sid ∈ (setupSession (.ok sid) reg).registry ∧
    (stepBridge sv s .openAIErrored).1.sess.twilioOpen = false ∧
    sid ∉ (stepBridge sv s .openAIErrored).1.registry := by
  refine ⟨rfl, rfl, rfl, ?_, rfl, ?_⟩
  · simp only [setupSession, regSet]
    split
    · next hc => exact List.mem_of_elem_eq_true hc
    · exact List.mem_cons_self sid reg
  · simp [stepBridge, h]
    exact not_mem_regDelete sid s.registry

end Translation

namespace Translation

/-- C3 (amended): the guard on the stream identifier is present in the
src/unnamed/part_001 variant, where a backend audio-delta event with the
stored stream identifier unknown writes nothing to the caller and every
frame that is written is tagged with the known stored identifier; but not
in src/index.js, whose delta branch writes whenever the caller socket is
open, tagging the frame with the event stream_sid falling back to the
stored identifier, so a delta arriving before start is written with a null
stream tag. -/
theorem C3_stream_tag_guard (s1 : Part1.State) (sv : Nat → Int) (s : BridgeState)
    (d : String) (h1 : s1.streamSid = none) (h2 : s.sess.streamSid = none)
    (h3 : s.sess.twilioOpen = true) :
    (∀ e : OpenAIEvent, Part1.processOpenAIEvent s1 e = []) ∧
    (∀ t : Part1.State, ∀ e : OpenAIEvent, ∀ f : MediaFrame,
      f ∈ Part1.processOpenAIEvent t e →
        f.streamSid = t.streamSid ∧ t.streamSid.isSome = true) ∧
    (stepBridge sv s (.fromOpenAI (some (.outputAudioDelta none d)))).2.2 =
      [{ streamSid := none, payload := d }] := by
  refine ⟨?_, ?_, ?_⟩
  · intro e
    cases e <;> simp [Part1.processOpenAIEvent, h1]
  · intro t e f hf
    cases e <;> simp [Part1.processOpenAIEvent] at hf
    case outputAudioDelta sid d2 =>
      rcases hf with ⟨⟨-, hsome⟩, hframe⟩
      subst hframe
      exact ⟨rfl, hsome⟩
  · simp [stepBridge, processOpenAIEvent, jsOr, h2, h3]

/-- C8: in src/index.js exactly one configuration event is sent to the
backend, at backend-socket open, and no other handler ever sends one; it
declares both audio and text modalities, pcm16 input and output encoding,
the voice verse, the fixed bidirectional interpreter instructions, the
whisper-1 transcription model, and server_vad turn detection with threshold
one half, 300 ms prefix padding and 200 ms silence duration. -/
theorem C8_config_sent_once_at_open (sv : Nat → Int) (s : BridgeState) :
    (stepBridge sv s .openAIOpened).2.1 = [.sessionUpdate indexSessionConfig] ∧
    indexSessionConfig.modalities = ["audio", "text"] ∧
    indexSessionConfig.inputAudioFormat = "pcm16" ∧
    indexSessionConfig.outputAudioFormat = "pcm16" ∧
    indexSessionConfig.voice = "verse" ∧
    indexSessionConfig.instructions = interpreterInstructions ∧
    indexSessionConfig.transcriptionModel = "whisper-1" ∧
    indexSessionConfig.turnDetectionType = "server_vad" ∧
    indexSessionConfig.threshold = 1 / 2 ∧
    indexSessionConfig.prefixPaddingMs = 300 ∧
    indexSessionConfig.silenceDurationMs = 200 ∧
    (∀ e : BridgeEvent, e ≠ .openAIOpened →
      ∀ cfg : SessionConfig, ToOpenAIMsg.sessionUpdate cfg ∉ (stepBridge sv s e).2.1) := by
  refine ⟨rfl, rfl, rfl, rfl, rfl, rfl, rfl, rfl, by norm_num [indexSessionConfig],
    rfl, rfl, ?_⟩
  intro e hne cfg
  cases e with
  | fromTwilio m =>
      cases m with
      | none => simp [stepBridge]
      | some ev =>
          cases ev <;> simp [stepBridge, processTwilioEvent] <;> split <;> simp
  | fromOpenAI m =>
      cases m with
      | none => simp [stepBridge]
      | some ev =>
          cases ev <;> simp [stepBridge, processOpenAIEvent] <;> split <;> simp
  | openAIOpened => exact absurd rfl hne
  | openAIClosed => simp [stepBridge]
  | openAIErrored => simp [stepBridge]
  | twilioClosed => simp [stepBridge]
  | twilioErrored => simp [stepBridge]

/-- C10: in the gated variant src/index.js, when the session.updated
acknowledgment opens the gate while the stream identifier is already known
and the caller socket open, the handler writes one synthetic media frame to
the caller, tagged with the known identifier and carrying the base64
encoding of the generateBeepTone PCM bytes at 440 Hz and 200 ms, which is
floor of 8000 times 200 over 1000, that is 1600 samples of two little-endian
bytes each; it then sends one response.create asking the backend to say
Translator ready; and over a subsequent backend audio delta the beep frame
precedes every translated frame. -/
theorem C10_ready_beep_then_announcement (sv : Nat → Int) (s : BridgeState)
    (sid : String) (d : String) (h1 : s.sess.streamSid = some sid)
    (h2 : s.sess.twilioOpen = true) :
    (stepBridge sv s (.fromOpenAI (some .sessionUpdated))).1.sess.openAIReady = true ∧
    (stepBridge sv s (.fromOpenAI (some .sessionUpdated))).2.2 =
      [{ streamSid := some sid, payload := generateBeepTone sv 440 200 }] ∧
    (stepBridge sv s (.fromOpenAI (some .sessionUpdated))).2.1 =
      [ToOpenAIMsg.responseCreate (some translatorReadyInstructions)] ∧
    generateBeepTone sv 440 200 = base64Encode (beepBytes sv 200) ∧
    beepSampleCount 8000 200 = 1600 ∧
    (beepBytes sv 200).length = 2 * 1600 ∧
    beepBytes sv 200 =
      (List.range 1600).flatMap (fun i => [sampleLo (sv i), sampleHi (sv i)]) ∧
    (runBridge sv s
        [.fromOpenAI (some .sessionUpdated),
          .fromOpenAI (some (.outputAudioDelta none d))]).2.2 =
      [{ streamSid := some sid, payload := generateBeepTone sv 440 200 },
        { streamSid := some sid, payload := d }] := by
  refine ⟨?_, ?_, ?_, rfl, rfl, ?_, ?_, ?_⟩
  · simp [stepBridge, processOpenAIEvent, h1, h2]
  · simp [stepBridge, processOpenAIEvent, h1, h2]
  · simp [stepBridge, processOpenAIEvent, h1, h2]
  · exact beepList_length sv 1600
  · exact beepList_eq_flatMap sv 1600
  · simp [runBridge, stepBridge, processOpenAIEvent, jsOr, h1, h2]

end Translation

namespace Translation

/-- C1 witness: the teardown theorem instantiated at the reachable ready
state with session identifier s1. -/
theorem C1_teardown_symmetry_witness :
    ((stepBridge zeroSamples readyAbc .openAIClosed).1.sess.twilioOpen = false ∧
      (stepBridge zeroSamples readyAbc .openAIClosed).1.sess.openAIOpen = false ∧
      "s1" ∉ (stepBridge zeroSamples readyAbc .openAIClosed).1.registry) ∧
    ((stepBridge zeroSamples readyAbc .openAIErrored).1.sess.twilioOpen = false ∧
      (stepBridge zeroSamples readyAbc .openAIErrored).1.sess.openAIOpen = false ∧
      "s1" ∉ (stepBridge zeroSamples readyAbc .openAIErrored).1.registry) ∧
    ((stepBridge zeroSamples readyAbc .twilioClosed).1.sess.twilioOpen = false ∧
      (stepBridge zeroSamples readyAbc .twilioClosed).1.sess.openAIOpen = false ∧
      "s1" ∉ (stepBridge zeroSamples readyAbc .twilioClosed).1.registry) ∧
    ((stepBridge zeroSamples readyAbc .twilioErrored).1.sess.twilioOpen = false ∧
      (stepBridge zeroSamples readyAbc .twilioErrored).1.sess.openAIOpen = false ∧
      "s1" ∉ (stepBridge zeroSamples readyAbc .twilioErrored).1.registry) ∧
    (∀ t : Part3.State,
      (Part3.processLeg t .callerClosed).wsOpen = false ∧
      (Part3.processLeg t .callerClosed).openAIOpen = false ∧
      (Part3.processLeg t .callerErrored).wsOpen = false ∧
      (Part3.processLeg t .callerErrored).openAIOpen = false ∧
      (Part3.processLeg t .backendClosed).wsOpen = t.wsOpen ∧
      (Part3.processLeg t .backendErrored).wsOpen = t.wsOpen) :=
  C1_teardown_symmetry zeroSamples readyAbc "s1" rfl

/-- C2 witness: the gate theorem instantiated at the reachable state before
the session.updated acknowledgment, with a concrete frame. -/
theorem C2_gate_drops_never_flushes_witness :
    stepBridge zeroSamples gateClosedState (.fromTwilio (some (.media "AAA"))) =
      (gateClosedState, [], []) ∧
    runBridge zeroSamples gateClosedState
        (.fromTwilio (some (.media "AAA")) :: []) =
      runBridge zeroSamples gateClosedState [] ∧
    (∀ e : BridgeEvent, ∀ q : String,
      ToOpenAIMsg.inputAudioAppend q ∉ (stepBridge zeroSamples gateClosedState e).2.1) ∧
    (∀ e : BridgeEvent, e ≠ .fromOpenAI (some .sessionUpdated) →
      (stepBridge zeroSamples gateClosedState e).1.sess.openAIReady = false) :=
  C2_gate_drops_never_flushes zeroSamples gateClosedState "AAA" [] rfl

/-- C3 witness: the stream-tag theorem instantiated at the reachable
no-start states of the two variants, with a concrete delta. -/
theorem C3_stream_tag_guard_witness :
    (∀ e : OpenAIEvent, Part1.processOpenAIEvent part1NoStream e = []) ∧
    (∀ t : Part1.State, ∀ e : OpenAIEvent, ∀ f : MediaFrame,
      f ∈ Part1.processOpenAIEvent t e →
        f.streamSid = t.streamSid ∧ t.streamSid.isSome = true) ∧
    (stepBridge zeroSamples noStreamState
        (.fromOpenAI (some (.outputAudioDelta none "XXX")))).2.2 =
      [{ streamSid := none, payload := "XXX" }] :=
  C3_stream_tag_guard part1NoStream zeroSamples noStreamState "XXX" rfl rfl rfl

/-- C5 witness: the media-before-start theorem instantiated at the reachable
no-start state with a concrete frame. -/
theorem C5_media_before_start_not_special_witness :
    stepBridge zeroSamples noStreamState (.fromTwilio (some (.media "AAA"))) =
      (noStreamState,
        (if noStreamState.sess.openAIOpen && noStreamState.sess.openAIReady then
          [ToOpenAIMsg.inputAudioAppend "AAA"]
        else []), []) :=
  C5_media_before_start_not_special zeroSamples noStreamState "AAA" rfl

/-- C7 witness: the setup-atomicity theorem instantiated at the empty
registry and the reachable ready state with session identifier s1. -/
theorem C7_setup_atomicity_witness :
    (setupSession .failure []).callerClosed = true ∧
    (setupSession .failure []).registry = [] ∧
    (setupSession .failure []).established = none ∧
    "s1" ∈ (setupSession (.ok "s1") []).registry ∧
    (stepBridge zeroSamples readyAbc .openAIErrored).1.sess.twilioOpen = false ∧
    "s1" ∉ (stepBridge zeroSamples readyAbc .openAIErrored).1.registry :=
  C7_setup_atomicity "s1" [] zeroSamples readyAbc rfl

/-- C10 witness: the beep theorem instantiated at the reachable ready state
with stream identifier abc and a concrete delta. -/
theorem C10_ready_beep_then_announcement_witness :
    (stepBridge zeroSamples readyAbc (.fromOpenAI (some .sessionUpdated))).1.sess.openAIReady = true ∧
    (stepBridge zeroSamples readyAbc (.fromOpenAI (some .sessionUpdated))).2.2 =
      [{ streamSid := some "abc", payload := generateBeepTone zeroSamples 440 200 }] ∧
    (stepBridge zeroSamples readyAbc (.fromOpenAI (some .sessionUpdated))).2.1 =
      [ToOpenAIMsg.responseCreate (some translatorReadyInstructions)] ∧
    generateBeepTone zeroSamples 440 200 = base64Encode (beepBytes zeroSamples 200) ∧
    beepSampleCount 8000 200 = 1600 ∧
    (beepBytes zeroSamples 200).length = 2 * 1600 ∧
    beepBytes zeroSamples 200 =
      (List.range 1600).flatMap (fun i => [sampleLo (zeroSamples i), sampleHi (zeroSamples i)]) ∧
    (runBridge zeroSamples readyAbc
        [.fromOpenAI (some .sessionUpdated),
          .fromOpenAI (some (.outputAudioDelta none "XXX"))]).2.2 =
      [{ streamSid := some "abc", payload := generateBeepTone zeroSamples 440 200 },
        { streamSid := some "abc", payload := "XXX" }] :=
  C10_ready_beep_then_announcement zeroSamples readyAbc "abc" "XXX" rfl rfl

end Translation
